import Mathlib

/-!
Verification of the yourmuesli.at IoT environmental-monitoring firmware
(`src/raspi_firmware/code.py`) and of its cloud-side MQTT collector
(`src/Cloud/collector/app.py`), shallowly embedded in Lean 4.

Modelling conventions:

* Python values produced by `json.loads` and held in the configuration
  dictionaries are represented by the inductive type `PyVal`; dictionaries
  are association lists with string keys and first-match lookup.
* Python exceptions are represented by `Except`/`Option` results; a
  `try`/`except` block becomes a `match` on such a result.
* `microcontroller.reset()` never returns, so any computation that can
  reach it returns an event trace plus an optional normal return value
  (`Option` is `none` exactly when the reset aborted the computation).
* External collaborators (the CircuitPython `board` module, the DHT
  driver, `wifi.radio`, the MiniMQTT library, sockets and the wall clock)
  are modelled at their interface boundary: their outcomes are explicit
  parameters of the embedded functions.
-/

namespace IIoT

/-- Python/JSON values as produced by `json.loads` and stored in the
configuration dictionaries.  Python booleans are a subclass of `int`
(`isinstance(True, int)` is `True`), which the embedding reflects in
`pyIsInstInt` below.  Python floats are represented by rationals. -/
inductive PyVal where
  | pynone
  | pybool (b : Bool)
  | pyint (n : Int)
  | pyfloat (q : ℚ)
  | pystr (s : String)
  | pylist (xs : List PyVal)
  | pydict (fs : List (String × PyVal))

/-- A Python dictionary with string keys (as produced by `json.loads` on a
JSON object, or as held by `ConfigManager.settings`). -/
abbrev Dict := List (String × PyVal)

/-- `d.get(k)` / `d[k]`-style lookup: the value stored under `k`, if any. -/
def dget : Dict → String → Option PyVal
  | [], _ => Option.none
  | (k', v) :: rest, k => if k' = k then some v else dget rest k

/-- `d.get(k, default)`: lookup with a default. -/
def dgetD (d : Dict) (k : String) (v : PyVal) : PyVal :=
  (dget d k).getD v

/-- `d[k] = v`: in-place update, keeping the position of an existing key
(Python dictionaries preserve insertion order). -/
def dset : Dict → String → PyVal → Dict
  | [], k, v => [(k, v)]
  | (k', v') :: rest, k, v =>
    if k' = k then (k, v) :: rest else (k', v') :: dset rest k v

/-- `list(d.keys())`. -/
def dkeys (d : Dict) : List String := d.map Prod.fst

/-- Python truthiness (`if x:`) for the values we model. -/
def pyTruthy : PyVal → Bool
  | .pynone => false
  | .pybool b => b
  | .pyint n => decide (n ≠ 0)
  | .pyfloat q => decide (q ≠ 0)
  | .pystr s => decide (s ≠ "")
  | .pylist xs => !xs.isEmpty
  | .pydict fs => !fs.isEmpty

/-- Python `isinstance(v, int)`.  Note that this is `true` for booleans:
in CPython `bool` is a subclass of `int`. -/
def pyIsInstInt : PyVal → Bool
  | .pyint _ => true
  | .pybool _ => true
  | _ => false

/-- The integer value of a Python `int` (with `True = 1`, `False = 0`);
only meaningful when `pyIsInstInt` holds. -/
def pyIntVal : PyVal → Int
  | .pyint n => n
  | .pybool b => if b then 1 else 0
  | _ => 0

/-- `', '.join(keys)` as used in the invalid-keys error message. -/
def joinComma (keys : List String) : String :=
  String.intercalate ", " keys

-- ===================================================================
-- WebServer responses (code.py, `_http_response` / `_http_error`)
-- ===================================================================

/-- An HTTP response at the granularity the claims need: the status code
and the JSON body (before serialization by `json.dumps`). -/
structure HttpResp where
  status : Nat
  body : Dict

/-- `WebServer._http_error`: a JSON error body `{error, status_code}`. -/
def http_error (status : Nat) (message : String) : HttpResp :=
  ⟨status, [("error", .pystr message), ("status_code", .pyint status)]⟩

-- ===================================================================
-- Observable device events (file write, reset, response send)
-- ===================================================================

/-- Externally observable actions of the firmware, in execution order:
writing the settings file, the hard `microcontroller.reset()`, and
`client.send(response)` inside `WebServer.poll`. -/
inductive Event where
  | fileWrite (d : Dict)
  | reset
  | sendResp (r : HttpResp)

/-- Whether an event is a `client.send` of an HTTP response. -/
def Event.isSend : Event → Bool
  | .sendResp _ => true
  | .reset => false
  | .fileWrite _ => false

/-- Whether an event is the hard `microcontroller.reset()`. -/
def Event.isReset : Event → Bool
  | .reset => true
  | .sendResp _ => false
  | .fileWrite _ => false

/-- Whether a trace contains a reset. -/
def hasReset (evs : List Event) : Bool := evs.any Event.isReset

-- ===================================================================
-- ConfigManager.save_settings (code.py lines 84-105)
-- ===================================================================

/-- Result of `ConfigManager.save_settings`: the emitted events and
whether control returns to the caller (`false` exactly when the reset
was reached, since `microcontroller.reset()` never returns). -/
structure SaveOut where
  events : List Event
  returned : Bool

/-- `ConfigManager.save_settings(settings)`: writes the TOML file, then
sleeps 3 seconds and calls `microcontroller.reset()`.  If the file write
raises, the exception is caught, logged, and the method returns normally
without resetting.  `writeOk` is the outcome of the file write. -/
def save_settings (writeOk : Bool) (settings : Dict) : SaveOut :=
  if writeOk then ⟨[.fileWrite settings, .reset], false⟩ else ⟨[], true⟩

-- ===================================================================
-- WebServer._post_config (code.py lines 610-696)
-- ===================================================================

/-- The request body of `POST /config` after the firmware's own
pre-processing: empty/whitespace-only, unparseable JSON (with the
`json.loads` error text), or a parsed JSON object. -/
inductive Body where
  | empty
  | badJson (e : String)
  | jsonObj (c : Dict)

/-- The `valid_keys` set of `WebServer._post_config`. -/
def valid_keys : List String :=
  ["device_id", "names", "location",
   "mqtt_broker", "mqtt_port", "mqtt_user", "mqtt_password",
   "reading_interval_seconds", "sensor_pin"]

/-- `set(new_config.keys()) - valid_keys`: the submitted keys that are
not allowed (membership-wise; CPython's set iteration order is not
modelled, the body's key order is used). -/
def unknown_keys (c : Dict) : List String :=
  (dkeys c).filter (fun k => decide (k ∉ valid_keys))

/-- The `mqtt_port` type/range check of `_post_config`:
`not isinstance(v, int) or not (1 <= v <= 65535)`. -/
def mqtt_port_invalid (c : Dict) : Bool :=
  match dget c "mqtt_port" with
  | Option.none => false
  | some v => !(pyIsInstInt v && decide (1 ≤ pyIntVal v) && decide (pyIntVal v ≤ 65535))

/-- The `reading_interval_seconds` check of `_post_config`:
`not isinstance(v, int) or v < 1`. -/
def reading_interval_invalid (c : Dict) : Bool :=
  match dget c "reading_interval_seconds" with
  | Option.none => false
  | some v => !(pyIsInstInt v && decide (1 ≤ pyIntVal v))

/-- The `sensor_pin` check of `_post_config`:
`not isinstance(v, int) or not (0 <= v <= 28)`. -/
def sensor_pin_invalid (c : Dict) : Bool :=
  match dget c "sensor_pin" with
  | Option.none => false
  | some v => !(pyIsInstInt v && decide (0 ≤ pyIntVal v) && decide (pyIntVal v ≤ 28))

/-- The `key_mapping` of `_post_config`: API key names are mapped to the
internal settings key names; every other key maps to itself
(`key_mapping.get(key, key)`). -/
def key_mapping (k : String) : String :=
  if k = "mqtt_broker" then "MQTT_BROKER"
  else if k = "mqtt_port" then "MQTT_PORT"
  else if k = "mqtt_user" then "MQTT_USER"
  else if k = "mqtt_password" then "MQTT_PASSWORD"
  else k

/-- The merge loop of `_post_config`:
`updated_settings = settings.copy()` followed by
`updated_settings[key_mapping.get(k, k)] = v` for each submitted pair. -/
def merge_settings (settings : Dict) (c : Dict) : Dict :=
  c.foldl (fun acc kv => dset acc (key_mapping kv.1) kv.2) settings

/-- Whether a `POST /config` body passes all of `_post_config`'s
validation, i.e. reaches the merge-and-save part of the handler. -/
def body_valid : Body → Bool
  | .jsonObj c =>
    decide (unknown_keys c = []) && !mqtt_port_invalid c &&
      !reading_interval_invalid c && !sensor_pin_invalid c
  | _ => false

/-- Outcome of a request handler: the events it emitted and, when control
returned to `poll`, the response it returned (`none` exactly when the
handler was aborted by the reset inside `save_settings`). -/
structure HandlerOut where
  events : List Event
  ret : Option HttpResp

/-- The 200 body of a successful `POST /config`:
`{message, updated_fields, reboot: true}`. -/
def post_config_ok_body (c : Dict) : Dict :=
  [("message", .pystr "Configuration updated successfully. Device will reboot in 3 seconds."),
   ("updated_fields", .pylist ((dkeys c).map PyVal.pystr)),
   ("reboot", .pybool true)]

/-- `WebServer._post_config(body)`.  Mirrors the source's branch order:
empty body, JSON parse, unknown keys, `mqtt_port`, then
`reading_interval_seconds`, then `sensor_pin` type checks, then merge,
build the 200 response, and call `save_settings` — whose reset (on a
successful file write) fires before the handler can return the
response. -/
def post_config (settings : Dict) (writeOk : Bool) (b : Body) : HandlerOut :=
  match b with
  | .empty => ⟨[], some (http_error 400 "Empty request body")⟩
  | .badJson e => ⟨[], some (http_error 400 ("Invalid JSON: " ++ e))⟩
  | .jsonObj c =>
    if unknown_keys c ≠ [] then
      ⟨[], some (http_error 400 ("Invalid configuration keys: " ++ joinComma (unknown_keys c)))⟩
    else if mqtt_port_invalid c then
      ⟨[], some (http_error 400 "mqtt_port must be integer between 1-65535")⟩
    else if reading_interval_invalid c then
      ⟨[], some (http_error 400 "reading_interval_seconds must be positive integer")⟩
    else if sensor_pin_invalid c then
      ⟨[], some (http_error 400 "sensor_pin must be integer between 0-28")⟩
    else
      let updated := merge_settings settings c
      let resp : HttpResp := ⟨200, post_config_ok_body c⟩
      let sv := save_settings writeOk updated
      ⟨sv.events, if sv.returned then some resp else Option.none⟩

/-- The part of `WebServer.poll` that runs after `_post_config` returns:
`client.send(response)`.  If the handler was aborted by the reset, the
send is never reached; otherwise the response is sent after the handler
returns. -/
def poll_post_config (settings : Dict) (writeOk : Bool) (b : Body) : List Event :=
  let h := post_config settings writeOk b
  match h.ret with
  | some r => h.events ++ [.sendResp r]
  | Option.none => h.events

-- ===================================================================
-- WebServer state and GET handlers (code.py lines 408-426, 574-779)
-- ===================================================================

/-- The dictionary `WebServer.update_sensor_data` stores in
`last_sensor_data`: the sampled temperature/humidity (absent keys read
back as `None`) plus the ISO-8601 capture timestamp. -/
structure LastReading where
  temperature : PyVal
  humidity : PyVal
  timestamp : String

/-- The mutable `WebServer` state the claims touch: the cached last
successful sensor reading and the `time.monotonic()` start time. -/
structure WebState where
  last_sensor_data : Option LastReading
  start_time : Nat

/-- `WebServer.__init__`: `last_sensor_data = None`, start time recorded. -/
def webserver_init (now : Nat) : WebState := ⟨Option.none, now⟩

/-- `WebServer.update_sensor_data(sensor_data)`: ignores falsy input,
otherwise caches the reading together with an ISO timestamp. -/
def update_sensor_data (s : WebState) (d : Dict) (iso : String) : WebState :=
  if d.isEmpty then s
  else
    let r : LastReading := ⟨dgetD d "temperature" .pynone, dgetD d "humidity" .pynone, iso⟩
    { s with last_sensor_data := some r }

/-- Environment values `_get_status` reads from outside the server object:
`wifi.radio.connected`, the IP address, whether `mqtt._sock` is set, and
the current `time.monotonic()`. -/
structure StatusEnv where
  wifi_connected : Bool
  ip : String
  mqtt_sock : Bool
  now : Nat

/-- `WebServer._get_status`: the 200 JSON status document, with the three
last-reading fields `None` until a successful sample has been cached. -/
def get_status (settings : Dict) (s : WebState) (env : StatusEnv) : HttpResp :=
  let ct : PyVal := match s.last_sensor_data with
    | some r => r.temperature
    | Option.none => .pynone
  let ch : PyVal := match s.last_sensor_data with
    | some r => r.humidity
    | Option.none => .pynone
  let lt : PyVal := match s.last_sensor_data with
    | some r => .pystr r.timestamp
    | Option.none => .pynone
  ⟨200,
   [("device_id", dgetD settings "device_id" (.pystr "unknown")),
    ("wifi_connected", .pybool env.wifi_connected),
    ("wifi_ssid", dgetD settings "CIRCUITPY_WIFI_SSID" (.pystr "")),
    ("ip_address", if env.wifi_connected then .pystr env.ip else .pynone),
    ("mqtt_connected", .pybool env.mqtt_sock),
    ("mqtt_broker", dgetD settings "MQTT_BROKER" (.pystr "")),
    ("uptime_seconds", .pyint (env.now - s.start_time : Nat)),
    ("last_temperature", ct),
    ("last_humidity", ch),
    ("last_reading_timestamp", lt),
    ("firmware_version", .pystr "1.0.0")]⟩

/-- `WebServer._get_config`: the 200 JSON configuration document
(credential fields excluded). -/
def get_config (settings : Dict) : HttpResp :=
  ⟨200,
   [("device_id", dgetD settings "device_id" (.pystr "")),
    ("names", dgetD settings "names" (.pystr "")),
    ("location", dgetD settings "location" (.pystr "")),
    ("mqtt_broker", dgetD settings "MQTT_BROKER" (.pystr "")),
    ("mqtt_port", dgetD settings "MQTT_PORT" (.pyint 1883)),
    ("mqtt_user", dgetD settings "MQTT_USER" (.pystr "")),
    ("reading_interval_seconds", dgetD settings "reading_interval_seconds" (.pyint 60)),
    ("sensor_pin", dgetD settings "sensor_pin" (.pyint 15))]⟩

/-- A routed HTTP request, as dispatched by `_handle_get_request` /
`_handle_post_request` inside `WebServer.poll`. -/
inductive Request where
  | getConfig
  | getStatus
  | postConfig (b : Body)
  | notFound

/-- Request dispatch inside `WebServer.poll`. -/
def handle_request (settings : Dict) (web : WebState) (senv : StatusEnv)
    (writeOk : Bool) : Request → HandlerOut
  | .getConfig => ⟨[], some (get_config settings)⟩
  | .getStatus => ⟨[], some (get_status settings web senv)⟩
  | .postConfig b => post_config settings writeOk b
  | .notFound => ⟨[], some (http_error 404 "Not Found")⟩

/-- `WebServer.poll`, at the claims' granularity: accept at most one
pending connection (`none` = no client waiting), run the handler, and —
only if the handler returned — send its response. -/
def poll (settings : Dict) (web : WebState) (senv : StatusEnv)
    (writeOk : Bool) : Option Request → List Event
  | Option.none => []
  | some r =>
    let h := handle_request settings web senv writeOk r
    match h.ret with
    | some resp => h.events ++ [.sendResp resp]
    | Option.none => h.events

-- ===================================================================
-- MqttClient (code.py lines 258-391)
-- ===================================================================

/-- A message handed to the MQTT library for wire delivery: topic (a
Python value straight from the configuration) and JSON payload. -/
structure Msg where
  topic : PyVal
  payload : Dict

/-- The telemetry session state: whether the MiniMQTT session is
connected, and anything queued for later delivery.  MiniMQTT has no
offline queue, so nothing in the model ever adds to `queued`; the field
exists to state that explicitly. -/
structure MqttState where
  connected : Bool
  queued : List Msg

/-- `MQTT.publish` of the MiniMQTT library, at its interface boundary:
when the session is connected the message goes out on the wire; when it
is not, the call raises (`MMQTTException`) without sending or queueing
anything. -/
def mqtt_lib_publish (st : MqttState) (topic : PyVal) (payload : Dict) :
    Except Unit (MqttState × List Msg) :=
  if st.connected then .ok (st, [⟨topic, payload⟩]) else .error ()

/-- One sensor sample, `{'temperature': float, 'humidity': float}`. -/
structure Reading where
  temperature : ℚ
  humidity : ℚ

/-- Result of `publish_telemetry` / `publish_status`: the session state
afterwards, the wire messages actually sent, and whether the surrounding
`try`/`except` caught an error (the failure is reported locally via
`print` and swallowed). -/
structure PublishOut where
  st : MqttState
  wire : List Msg
  localFailure : Bool

/-- `MqttClient.publish_telemetry(data)`: formats the temperature and
humidity payloads and publishes each to its configured topic; any raise
from the library is caught and reported as a local failure. -/
def publish_telemetry (cfg : Dict) (st : MqttState) (data : Reading)
    (iso : String) : PublishOut :=
  let tempPayload : Dict :=
    [("device_id", dgetD cfg "device_id" .pynone), ("unit", .pystr "°C"),
     ("value", .pyfloat data.temperature), ("timestamp", .pystr iso)]
  let humPayload : Dict :=
    [("device_id", dgetD cfg "device_id" .pynone), ("unit", .pystr "%"),
     ("value", .pyfloat data.humidity), ("timestamp", .pystr iso)]
  match mqtt_lib_publish st (dgetD cfg "telemetry_topic_temperature" .pynone) tempPayload with
  | .error _ => ⟨st, [], true⟩
  | .ok (st1, m1) =>
    match mqtt_lib_publish st1 (dgetD cfg "telemetry_topic_humidity" .pynone) humPayload with
    | .error _ => ⟨st1, m1, true⟩
    | .ok (st2, m2) => ⟨st2, m1 ++ m2, false⟩

/-- `MqttClient.publish_status(status)`: a single retained status message,
errors caught locally. -/
def publish_status (cfg : Dict) (st : MqttState) (status : String)
    (iso : String) : PublishOut :=
  let payload : Dict :=
    [("device_id", dgetD cfg "device_id" .pynone), ("status", .pystr status),
     ("timestamp", .pystr iso)]
  match mqtt_lib_publish st (dgetD cfg "status_topic" .pynone) payload with
  | .error _ => ⟨st, [], true⟩
  | .ok (st1, m) => ⟨st1, m, false⟩

-- ===================================================================
-- NetworkManager.connect (code.py lines 111-149)
-- ===================================================================

/-- The retry loop of `NetworkManager.connect`: up to `retries` calls of
`wifi.radio.connect`, whose outcomes (success / raised) are the `outcomes`
list; returns `True` as soon as one succeeds, `False` once the budget is
exhausted. -/
def connect_attempts : Nat → List Bool → Bool
  | 0, _ => false
  | _ + 1, [] => false
  | n + 1, o :: rest => if o then true else connect_attempts n rest

/-- `NetworkManager.connect()` with the source's `max_retries = 5`. -/
def nm_connect (outcomes : List Bool) : Bool := connect_attempts 5 outcomes

-- ===================================================================
-- The main control loop (code.py lines 928-989)
-- ===================================================================

/-- The external inputs of one iteration of the `while True` loop in
`main`: the pending HTTP request (if any), the outcome of the settings
file write, the status environment, whether the sampling interval has
elapsed and what the sensor returned, the wifi link state, the outcomes
of the `wifi.radio.connect` retries, the outcome of `mqtt.connect` during
reconnection, and the current clock reading. -/
structure TickEnv where
  req : Option Request
  writeOk : Bool
  senv : StatusEnv
  sensorDue : Bool
  sensorData : Option Reading
  wifiConnected : Bool
  wifiAttempts : List Bool
  mqttConnectOk : Bool
  iso : String

/-- The loop-carried state: the telemetry session, the in-memory settings
(`ConfigManager.settings`), and the web server's cached reading. -/
structure LoopState where
  mqtt : MqttState
  settings : Dict
  web : WebState

/-- Result of one loop iteration: whether the device reset (aborting the
iteration), the events of the HTTP poll, the telemetry wire messages, the
local-failure flag of the telemetry publish, the status wire messages of
a reconnect, and the next loop state. -/
structure TickOut where
  didReset : Bool
  pollEvents : List Event
  telemetry : List Msg
  telemetryFailure : Bool
  statusMsgs : List Msg
  next : LoopState

/-- Step (3) of the loop body: if the reading interval elapsed, read the
sensor; on a successful reading, cache it in the web server and publish
telemetry.  Returns the web state, the session state, the telemetry wire
messages, and the local-failure flag of the publish. -/
def sensor_step (env : TickEnv) (st : LoopState) :
    WebState × MqttState × List Msg × Bool :=
  if env.sensorDue then
    match env.sensorData with
    | some d =>
      let sd : Dict := [("temperature", .pyfloat d.temperature),
                        ("humidity", .pyfloat d.humidity)]
      let web1 := update_sensor_data st.web sd env.iso
      let p := publish_telemetry st.settings st.mqtt d env.iso
      (web1, p.st, p.wire, p.localFailure)
    | Option.none => (st.web, st.mqtt, ([] : List Msg), false)
  else (st.web, st.mqtt, ([] : List Msg), false)

/-- Step (4) of the loop body: if the link is down, run the
bounded-retry reconnect; on success, reconnect the MQTT session and
publish a retained "reconnected" status; on failure (budget exhausted),
do nothing — the loop just continues. -/
def wifi_step (env : TickEnv) (settings : Dict) (m : MqttState) :
    MqttState × List Msg :=
  if !env.wifiConnected then
    if nm_connect env.wifiAttempts then
      let m1 := if env.mqttConnectOk then { m with connected := true } else m
      let ps := publish_status settings m1 "reconnected" env.iso
      (ps.st, ps.wire)
    else (m, ([] : List Msg))
  else (m, ([] : List Msg))

/-- One iteration of the main loop, in the source's fixed order:
(1) `mqtt_client.loop()` (keep-alive pump; its exceptions are caught and
it leaves the modelled state unchanged); (2) `web_server.poll()` — a
valid `POST /config` resets the device here, aborting the iteration;
(3) the sensor step; (4) the link-recovery step; (5) the fixed sleep.
The outer `try`/`except Exception` of the loop catches every non-fatal
error, so no step ever terminates the loop itself. -/
def loop_tick (env : TickEnv) (st : LoopState) : TickOut :=
  let pollEvents := poll st.settings st.web env.senv env.writeOk env.req
  if hasReset pollEvents then
    ⟨true, pollEvents, [], false, [], st⟩
  else
    let ss := sensor_step env st
    let ws := wifi_step env st.settings ss.2.1
    ⟨false, pollEvents, ss.2.2.1, ss.2.2.2, ws.2, ⟨ws.1, st.settings, ss.1⟩⟩

/-- Whether a tick's pending request is a `POST /config` that passes
validation and whose settings write succeeds — the only in-loop path to
`microcontroller.reset()`. -/
def request_resets (req : Option Request) (writeOk : Bool) : Bool :=
  match req with
  | some (.postConfig b) => body_valid b && writeOk
  | _ => false

-- ===================================================================
-- WebServer.poll body completion (code.py lines 505-514)
-- ===================================================================

/-- Outcome of the body-completion `while` loop of `WebServer.poll`:
the completed body, a raised `OSError` from a `recv` whose 2.0 s
timeout expired, or exhaustion of the iteration budget. -/
inductive BodyRead where
  | done (body : List Nat)
  | timeoutErr
  | fuelOut

/-- The loop `while len(body) < content_length: body += client.recv(512)`.
`chunks` are the byte chunks the client actually delivers, one per `recv`
call; once they are exhausted, the next `recv` waits out its 2.0 s
timeout and raises `OSError` (the socket was set to `settimeout(2.0)`),
which this loop does not catch.  `fuel` bounds the number of iterations
so that non-termination is expressible. -/
def complete_body : Nat → List Nat → Nat → List (List Nat) → BodyRead
  | 0, _, _, _ => .fuelOut
  | fuel + 1, body, clen, chunks =>
    if clen ≤ body.length then .done body
    else
      match chunks with
      | [] => .timeoutErr
      | c :: rest => complete_body fuel (body ++ c) clen rest

/-- Total number of body bytes the client delivers. -/
def chunkTotal (chunks : List (List Nat)) : Nat :=
  (chunks.map List.length).sum

/-- How `WebServer.poll` ends once the header phase is over: the handler
response is sent, or a raised error was caught by poll's outer
`except`, which sends a 500 and closes (poll returns either way);
`hung` marks the impossible case of the read loop running forever. -/
inductive PollOutcome where
  | responded (r : HttpResp)
  | errorClosed
  | hung

/-- The rest of `WebServer.poll` after the headers are parsed: complete
the body, then dispatch (abstracted as `handle`); a raise from the body
loop is caught by the outer `except Exception`, which sends a 500 and
closes the connection. -/
def poll_after_header (handle : List Nat → HttpResp) (body : List Nat)
    (clen : Nat) (chunks : List (List Nat)) : PollOutcome :=
  match complete_body (chunks.length + 1) body clen chunks with
  | .done b => .responded (handle b)
  | .timeoutErr => .errorClosed
  | .fuelOut => .hung

-- ===================================================================
-- Sensor (code.py lines 194-252)
-- ===================================================================

/-- The `GP<n>` pin attributes of the CircuitPython `board` module on the
Raspberry Pi Pico W. -/
def pico_pins : List String :=
  ["GP0", "GP1", "GP2", "GP3", "GP4", "GP5", "GP6", "GP7", "GP8", "GP9",
   "GP10", "GP11", "GP12", "GP13", "GP14", "GP15", "GP16", "GP17", "GP18",
   "GP19", "GP20", "GP21", "GP22", "GP23", "GP24", "GP25", "GP26", "GP27",
   "GP28"]

/-- `getattr(board, name)`: the pin object when the attribute exists,
`none` for a raised `AttributeError`. -/
def board_getattr (name : String) : Option String :=
  if pico_pins.contains name then some name else Option.none

/-- The f-string `f"GP{pin_number}"`. -/
def pin_name (n : Int) : String := "GP" ++ toString n

/-- The pin-resolution part of `Sensor.__init__`: try
`getattr(board, f"GP{n}")`, on `AttributeError` fall back to `board.GP22`
(which itself would raise if the board lacked `GP22`). -/
def resolve_pin (n : Int) : Except String String :=
  match board_getattr (pin_name n) with
  | some p => .ok p
  | Option.none =>
    match board_getattr "GP22" with
    | some p => .ok p
    | Option.none => .error "AttributeError"

/-- A constructed `Sensor`: the resolved pin and whether
`adafruit_dht.DHT11(pin)` initialized (`self.dht is not None`). -/
structure Sensor where
  pin : String
  dht_ok : Bool

/-- `Sensor.__init__(n)` given the DHT driver's initialization outcome:
pin resolution, then driver construction with its exception caught
(`self.dht = None` on failure). -/
def sensor_init (n : Int) (dht_init_ok : Bool) : Except String Sensor :=
  match resolve_pin n with
  | .ok p => .ok ⟨p, dht_init_ok⟩
  | .error e => .error e

/-- `Sensor.read_data()` given the raw driver outcome: `none` when the
driver never initialized; otherwise `raw` is `none` when the property
access raised, or the pair of optional values the driver returned — a
reading is produced only when both are present. -/
def sensor_read (s : Sensor) (raw : Option (Option ℚ × Option ℚ)) : Option Reading :=
  if s.dht_ok = false then Option.none
  else
    match raw with
    | Option.none => Option.none
    | some (some t, some h) => some ⟨t, h⟩
    | some _ => Option.none

-- ===================================================================
-- Cloud collector, on_message (app.py lines 125-206)
-- ===================================================================

/-- A Python `datetime` value as used by the collector: either parsed
from an ISO-8601 string, or `datetime.utcnow()` taken at processing
time `t`. -/
inductive PyTimestamp where
  | fromIso (s : String)
  | utcNow (t : Nat)

/-- A row inserted by the collector into PostgreSQL. -/
inductive DbRow where
  | statusRow (device_id status : PyVal) (last_seen : PyTimestamp)
  | temperatureRow (device_id : PyVal) (value : ℚ) (unit : PyVal) (ts : PyTimestamp)
  | humidityRow (device_id : PyVal) (value : ℚ) (unit : PyVal) (ts : PyTimestamp)

/-- The `device_id` column of a collector row. -/
def rowDevice : DbRow → PyVal
  | .statusRow d _ _ => d
  | .temperatureRow d _ _ _ => d
  | .humidityRow d _ _ _ => d

/-- The timestamp column of a collector row (`last_seen` for status
rows). -/
def rowTs : DbRow → PyTimestamp
  | .statusRow _ _ t => t
  | .temperatureRow _ _ _ t => t
  | .humidityRow _ _ _ t => t

/-- Python `needle in hay.lower()` on strings: the needle occurs as a
contiguous substring of the lower-cased haystack (expressed on the
character lists). -/
def strContainsLower (hay needle : String) : Bool :=
  decide (needle.data <:+: hay.data.map Char.toLower)

/-- The timestamp logic of `on_message`: a truthy `timestamp` field is
parsed with `datetime.fromisoformat(s.replace('Z', '+00:00'))`
(parse failures of well-typed strings are not modelled; a truthy
non-string raises, aborting the message); a missing or falsy field
becomes `datetime.utcnow()`. -/
def collector_timestamp (nowT : Nat) (payload : Dict) : Option PyTimestamp :=
  match dget payload "timestamp" with
  | some v =>
    if pyTruthy v then
      match v with
      | .pystr s => some (.fromIso (s.replace "Z" "+00:00"))
      | _ => Option.none
    else some (.utcNow nowT)
  | Option.none => some (.utcNow nowT)

/-- `float(v)` for the payload's `value` field (numeric-string parsing is
not modelled; `None`/containers raise `TypeError`, aborting the
message). -/
def pyFloatOf : PyVal → Option ℚ
  | .pyint n => some (n : ℚ)
  | .pyfloat q => some q
  | .pybool b => some (if b then 1 else 0)
  | _ => Option.none

/-- The collector's `on_message`: extract `device_id` (default
`"unknown"`) and the timestamp (default now), then dispatch on the topic
— `"status"` first, then `"temperature"`, then `"humidity"` — and insert
the corresponding row; any raise rolls the transaction back and nothing
is stored (`none`). -/
def on_message (nowT : Nat) (topic : String) (payload : Dict) : Option DbRow :=
  let device_id := dgetD payload "device_id" (.pystr "unknown")
  match collector_timestamp nowT payload with
  | Option.none => Option.none
  | some ts =>
    if strContainsLower topic "status" then
      some (.statusRow device_id (dgetD payload "status" (.pystr "unknown")) ts)
    else if strContainsLower topic "temperature" then
      match pyFloatOf (dgetD payload "value" (.pyint 0)) with
      | some v => some (.temperatureRow device_id v (dgetD payload "unit" (.pystr "°C")) ts)
      | Option.none => Option.none
    else if strContainsLower topic "humidity" then
      match pyFloatOf (dgetD payload "value" (.pyint 0)) with
      | some v => some (.humidityRow device_id v (dgetD payload "unit" (.pystr "%")) ts)
      | Option.none => Option.none
    else Option.none

-- ===================================================================
-- Shared concrete data and helper lemmas
-- ===================================================================

/-- A concrete settings dictionary of the shape `load_settings` produces
(code.py lines 61-77), used as the stored configuration in concrete
evaluations. -/
def demo_settings : Dict :=
  [("device_id", .pystr "Sensor-TempHumid1"),
   ("names", .pynone),
   ("location", .pynone),
   ("CIRCUITPY_WIFI_SSID", .pystr "wifi"),
   ("CIRCUITPY_WIFI_PASSWORD", .pystr "pw"),
   ("MQTT_BROKER", .pystr "broker.example"),
   ("MQTT_PORT", .pyint 1883),
   ("MQTT_USER", .pynone),
   ("MQTT_PASSWORD", .pynone),
   ("MQTT_CLIENT_ID", .pystr "pico_w_client"),
   ("telemetry_topic_temperature", .pystr "iiot/sensor1/temperature"),
   ("telemetry_topic_humidity", .pystr "iiot/sensor1/humidity"),
   ("status_topic", .pystr "iiot/sensor1/status"),
   ("reading_interval_seconds", .pyint 60),
   ("sensor_pin", .pyint 15)]

theorem dget_dset_of_ne (d : Dict) (k k' : String) (v : PyVal) (h : k' ≠ k) :
    dget (dset d k' v) k = dget d k := by
  induction d with
  | nil => simp [dset, dget, h]
  | cons kv rest ih =>
    obtain ⟨a, b⟩ := kv
    by_cases ha : a = k'
    · subst ha
      simp [dset, dget, h]
    · simp only [dset, if_neg ha, dget]
      by_cases hak : a = k
      · simp [hak]
      · simp [hak, ih]

theorem merge_settings_not_mapped (c : Dict) : ∀ (settings : Dict) (k : String),
    k ∉ (dkeys c).map key_mapping →
    dget (merge_settings settings c) k = dget settings k := by
  induction c with
  | nil => intro s k _; rfl
  | cons kv rest ih =>
    intro s k h
    simp only [dkeys, List.map_cons, List.mem_cons, not_or] at h
    have hstep : merge_settings s (kv :: rest) =
        merge_settings (dset s (key_mapping kv.1) kv.2) rest := rfl
    rw [hstep]
    have hrest : k ∉ (dkeys rest).map key_mapping := by
      simpa [dkeys] using h.2
    rw [ih _ k hrest, dget_dset_of_ne _ _ _ _ (fun he => h.1 he.symm)]

-- ===================================================================
-- C1: is the 200 response sent before the restart?
-- ===================================================================

/-- C1.  For a valid `POST /config` whose settings write succeeds, the
trace of `WebServer.poll` is exactly: write the settings file, then
`microcontroller.reset()` — and contains no `client.send` at all.  The
claim that the client receives the 200 `{message, updated_fields,
reboot}` body before the restart is therefore false on the code:
`_post_config` calls `save_settings` (which sleeps 3 s and resets)
before returning the response to `poll`, so the send on line 525 of
`code.py` is never reached, even though the comment on line 678 says the
success response is sent before the restart. -/
theorem c1_success_response_never_sent :
    poll_post_config demo_settings true (Body.jsonObj [("device_id", PyVal.pystr "x")]) =
      [Event.fileWrite (merge_settings demo_settings [("device_id", PyVal.pystr "x")]),
       Event.reset]
    ∧ (poll_post_config demo_settings true
        (Body.jsonObj [("device_id", PyVal.pystr "x")])).all (fun e => !e.isSend) = true := by
  exact ⟨rfl, rfl⟩

-- ===================================================================
-- C5: mqtt_port validation
-- ===================================================================

/-- C5, counterexample.  The body `{"mqtt_port": true}` submits a value
that is not an integer (it is a JSON boolean), yet `_post_config` does
not answer 400: because CPython's `isinstance(True, int)` is `True` and
`1 <= True <= 65535` holds, validation passes, the configuration is
merged with `MQTT_PORT = True`, persisted to the settings file, and the
device resets.  This refutes the claim that every non-integer
`mqtt_port` yields 400 with no mutation. -/
theorem c5_bool_port_accepted :
    (post_config demo_settings true (Body.jsonObj [("mqtt_port", PyVal.pybool true)])).ret =
      Option.none
    ∧ (post_config demo_settings true (Body.jsonObj [("mqtt_port", PyVal.pybool true)])).events =
        [Event.fileWrite (merge_settings demo_settings [("mqtt_port", PyVal.pybool true)]),
         Event.reset]
    ∧ dget (merge_settings demo_settings [("mqtt_port", PyVal.pybool true)]) "MQTT_PORT" =
        some (PyVal.pybool true) := by
  exact ⟨rfl, rfl, rfl⟩

/-- C5, amended.  For every `POST /config` body in which `mqtt_port` is
present and is either not a Python integer (booleans count as integers,
with `True = 1`, `False = 0`) or outside `[1, 65535]`, the handler
answers 400 and emits no events: the settings file is not written and no
restart occurs. -/
theorem c5_invalid_port_rejected (settings : Dict) (writeOk : Bool) (c : Dict)
    (v : PyVal) (hv : dget c "mqtt_port" = some v)
    (hbad : pyIsInstInt v = false ∨ pyIntVal v < 1 ∨ 65535 < pyIntVal v) :
    (post_config settings writeOk (Body.jsonObj c)).events = []
    ∧ ∃ r, (post_config settings writeOk (Body.jsonObj c)).ret = some r ∧ r.status = 400 := by
  have hinv : mqtt_port_invalid c = true := by
    simp only [mqtt_port_invalid, hv]
    rcases hbad with h | h | h
    · simp [h]
    · have hd : decide (1 ≤ pyIntVal v) = false := decide_eq_false (by omega)
      simp [hd]
    · have hd : decide (pyIntVal v ≤ 65535) = false := decide_eq_false (by omega)
      simp [hd]
  by_cases hk : unknown_keys c = []
  · have hpc : post_config settings writeOk (Body.jsonObj c) =
        ⟨[], some (http_error 400 "mqtt_port must be integer between 1-65535")⟩ := by
      simp [post_config, hk, hinv]
    rw [hpc]
    exact ⟨rfl, _, rfl, rfl⟩
  · have hpc : post_config settings writeOk (Body.jsonObj c) =
        ⟨[], some (http_error 400
          ("Invalid configuration keys: " ++ joinComma (unknown_keys c)))⟩ := by
      simp [post_config, hk]
    rw [hpc]
    exact ⟨rfl, _, rfl, rfl⟩

/-- Witness for `c5_invalid_port_rejected` at the concrete body
`{"mqtt_port": "80"}` (a string is not an integer). -/
theorem c5_invalid_port_rejected_witness :
    (post_config demo_settings true (Body.jsonObj [("mqtt_port", PyVal.pystr "80")])).events = []
    ∧ ∃ r, (post_config demo_settings true
        (Body.jsonObj [("mqtt_port", PyVal.pystr "80")])).ret = some r ∧ r.status = 400 :=
  c5_invalid_port_rejected demo_settings true [("mqtt_port", PyVal.pystr "80")]
    (PyVal.pystr "80") rfl (Or.inl rfl)

-- ===================================================================
-- C6: unknown keys are rejected and listed exactly
-- ===================================================================

/-- C6.  For every `POST /config` body with at least one key outside
`valid_keys`, the handler answers 400 whose message lists the keys of
`unknown_keys c` — and that list contains exactly the submitted keys
that are not allowed; in particular it is a subset of the body's keys. -/
theorem c6_unknown_keys_rejected (settings : Dict) (writeOk : Bool) (c : Dict)
    (h : ∃ k, k ∈ dkeys c ∧ k ∉ valid_keys) :
    (post_config settings writeOk (Body.jsonObj c)).ret =
      some (http_error 400 ("Invalid configuration keys: " ++ joinComma (unknown_keys c)))
    ∧ (∀ k ∈ unknown_keys c, k ∈ dkeys c ∧ k ∉ valid_keys)
    ∧ (∀ k ∈ dkeys c, k ∉ valid_keys → k ∈ unknown_keys c) := by
  have hne : unknown_keys c ≠ [] := by
    obtain ⟨k, hk1, hk2⟩ := h
    have hmem : k ∈ unknown_keys c := by
      simp [unknown_keys, List.mem_filter, hk1, hk2]
    intro he
    rw [he] at hmem
    exact absurd hmem (List.not_mem_nil k)
  refine ⟨?_, ?_, ?_⟩
  · simp [post_config, hne]
  · intro k hk
    simpa [unknown_keys, List.mem_filter] using hk
  · intro k hk1 hk2
    simp [unknown_keys, List.mem_filter, hk1, hk2]

/-- Witness for `c6_unknown_keys_rejected` at the concrete body
`{"foo": 1, "device_id": "x"}`. -/
theorem c6_unknown_keys_rejected_witness :
    (post_config demo_settings true
      (Body.jsonObj [("foo", PyVal.pyint 1), ("device_id", PyVal.pystr "x")])).ret =
      some (http_error 400 ("Invalid configuration keys: " ++
        joinComma (unknown_keys [("foo", PyVal.pyint 1), ("device_id", PyVal.pystr "x")])))
    ∧ (∀ k ∈ unknown_keys [("foo", PyVal.pyint 1), ("device_id", PyVal.pystr "x")],
        k ∈ dkeys [("foo", PyVal.pyint 1), ("device_id", PyVal.pystr "x")] ∧ k ∉ valid_keys)
    ∧ (∀ k ∈ dkeys [("foo", PyVal.pyint 1), ("device_id", PyVal.pystr "x")],
        k ∉ valid_keys →
        k ∈ unknown_keys [("foo", PyVal.pyint 1), ("device_id", PyVal.pystr "x")]) :=
  c6_unknown_keys_rejected demo_settings true _ ⟨"foo", by simp [dkeys], by decide⟩

-- ===================================================================
-- C7: the merge preserves every field not named in the update
-- ===================================================================

/-- C7.  The merged settings of a valid partial update equal the previous
settings on every stored key that is not the (internal) name of a
submitted field: submitted API keys are first translated by
`key_mapping` (`mqtt_port` ↦ `MQTT_PORT`, etc.), and every key outside
the image of the submitted keys is retained unchanged.  Moreover the
full merged copy is exactly what a valid update persists. -/
theorem c7_merge_preserves_unnamed (settings c : Dict) (k : String)
    (h : k ∉ (dkeys c).map key_mapping) :
    dget (merge_settings settings c) k = dget settings k
    ∧ (body_valid (Body.jsonObj c) = true →
        (post_config settings true (Body.jsonObj c)).events =
          [Event.fileWrite (merge_settings settings c), Event.reset]) := by
  refine ⟨merge_settings_not_mapped c settings k h, ?_⟩
  intro hval
  simp only [body_valid, Bool.and_eq_true, decide_eq_true_eq, Bool.not_eq_true'] at hval
  obtain ⟨⟨⟨h1, h2⟩, h3⟩, h4⟩ := hval
  simp [post_config, h1, h2, h3, h4, save_settings]

/-- Witness for `c7_merge_preserves_unnamed`: updating only `device_id`
leaves `MQTT_PORT` unchanged, and the update persists the merged copy. -/
theorem c7_merge_preserves_unnamed_witness :
    dget (merge_settings demo_settings [("device_id", PyVal.pystr "n")]) "MQTT_PORT" =
      dget demo_settings "MQTT_PORT"
    ∧ (body_valid (Body.jsonObj [("device_id", PyVal.pystr "n")]) = true →
        (post_config demo_settings true (Body.jsonObj [("device_id", PyVal.pystr "n")])).events =
          [Event.fileWrite (merge_settings demo_settings [("device_id", PyVal.pystr "n")]),
           Event.reset]) :=
  c7_merge_preserves_unnamed demo_settings [("device_id", PyVal.pystr "n")] "MQTT_PORT"
    (by decide)

-- ===================================================================
-- C8: GET /status before the first successful sample
-- ===================================================================

/-- C8.  A fresh `WebServer` starts with no cached reading, and for every
server state in which no successful sample has been recorded
(`last_sensor_data = None`), `GET /status` answers 200 JSON with
`last_temperature`, `last_humidity` and `last_reading_timestamp` all
`null`, whatever the settings and network environment are. -/
theorem c8_status_null_before_sample (settings : Dict) (s : WebState) (env : StatusEnv)
    (h : s.last_sensor_data = Option.none) :
    (∀ now, (webserver_init now).last_sensor_data = Option.none)
    ∧ (get_status settings s env).status = 200
    ∧ dget (get_status settings s env).body "last_temperature" = some PyVal.pynone
    ∧ dget (get_status settings s env).body "last_humidity" = some PyVal.pynone
    ∧ dget (get_status settings s env).body "last_reading_timestamp" = some PyVal.pynone := by
  obtain ⟨lsd, stime⟩ := s
  have hl : lsd = Option.none := h
  subst hl
  exact ⟨fun _ => rfl, rfl, rfl, rfl, rfl⟩

/-- Witness for `c8_status_null_before_sample` on a freshly initialized
server. -/
theorem c8_status_null_before_sample_witness :
    (∀ now, (webserver_init now).last_sensor_data = Option.none)
    ∧ (get_status demo_settings (webserver_init 0) ⟨true, "10.0.0.2", true, 7⟩).status = 200
    ∧ dget (get_status demo_settings (webserver_init 0)
        ⟨true, "10.0.0.2", true, 7⟩).body "last_temperature" = some PyVal.pynone
    ∧ dget (get_status demo_settings (webserver_init 0)
        ⟨true, "10.0.0.2", true, 7⟩).body "last_humidity" = some PyVal.pynone
    ∧ dget (get_status demo_settings (webserver_init 0)
        ⟨true, "10.0.0.2", true, 7⟩).body "last_reading_timestamp" = some PyVal.pynone :=
  c8_status_null_before_sample demo_settings (webserver_init 0) ⟨true, "10.0.0.2", true, 7⟩ rfl

-- ===================================================================
-- MQTT publish lemmas (for C2)
-- ===================================================================

theorem publish_telemetry_disconnected (cfg : Dict) (st : MqttState) (data : Reading)
    (iso : String) (h : st.connected = false) :
    publish_telemetry cfg st data iso = ⟨st, [], true⟩ := by
  simp [publish_telemetry, mqtt_lib_publish, h]

theorem publish_telemetry_st_eq (cfg : Dict) (st : MqttState) (data : Reading)
    (iso : String) : (publish_telemetry cfg st data iso).st = st := by
  by_cases h : st.connected <;> simp [publish_telemetry, mqtt_lib_publish, h]

theorem publish_status_st_eq (cfg : Dict) (st : MqttState) (s iso : String) :
    (publish_status cfg st s iso).st = st := by
  by_cases h : st.connected <;> simp [publish_status, mqtt_lib_publish, h]

theorem sensor_step_mqtt_queued (env : TickEnv) (st : LoopState) :
    (sensor_step env st).2.1.queued = st.mqtt.queued := by
  unfold sensor_step
  by_cases hd : env.sensorDue
  · simp only [hd, if_true]
    cases env.sensorData with
    | none => rfl
    | some d => simp [publish_telemetry_st_eq]
  · simp [hd]

theorem wifi_step_queued (env : TickEnv) (settings : Dict) (m : MqttState) :
    (wifi_step env settings m).1.queued = m.queued := by
  unfold wifi_step
  by_cases hw : env.wifiConnected
  · simp [hw]
  · simp only [hw, Bool.not_false, if_true]
    by_cases hc : nm_connect env.wifiAttempts
    · simp only [hc, if_true, publish_status_st_eq]
      by_cases hm : env.mqttConnectOk <;> simp [hm]
    · simp [hc]

theorem sensor_step_wire_connected (env : TickEnv) (st : LoopState)
    (h : (sensor_step env st).2.2.1 ≠ []) : st.mqtt.connected = true := by
  by_cases hc : st.mqtt.connected
  · exact hc
  · exfalso
    apply h
    have hc' : st.mqtt.connected = false := by simpa using hc
    unfold sensor_step
    by_cases hd : env.sensorDue
    · simp only [hd, if_true]
      cases env.sensorData with
      | none => rfl
      | some d => simp [publish_telemetry_disconnected _ _ _ _ hc']
    · simp [hd]

theorem sensor_step_disconnected_failure (env : TickEnv) (st : LoopState)
    (hc : st.mqtt.connected = false) (hd : env.sensorDue = true)
    (d : Reading) (hs : env.sensorData = some d) :
    (sensor_step env st).2.2.1 = [] ∧ (sensor_step env st).2.2.2 = true := by
  unfold sensor_step
  simp [hd, hs, publish_telemetry_disconnected _ _ _ _ hc]

-- ===================================================================
-- C2: telemetry is published only while connected, never queued
-- ===================================================================

/-- C2.  In every iteration of the control loop: telemetry wire messages
are emitted only when the session was connected at the start of the
tick; nothing is ever added to a queue for later delivery (the session's
`queued` list is unchanged by every tick); and when the session is
disconnected, a due sensor publish emits nothing and is reported as a
caught local failure (`publish_telemetry`'s `except` branch). -/
theorem c2_publish_only_when_connected (env : TickEnv) (st : LoopState) :
    ((loop_tick env st).telemetry ≠ [] → st.mqtt.connected = true)
    ∧ (loop_tick env st).next.mqtt.queued = st.mqtt.queued
    ∧ (st.mqtt.connected = false →
        (loop_tick env st).telemetry = []
        ∧ ((loop_tick env st).didReset = false → env.sensorDue = true →
            ∀ d, env.sensorData = some d → (loop_tick env st).telemetryFailure = true)) := by
  by_cases hp : hasReset (poll st.settings st.web env.senv env.writeOk env.req)
  · have hout : loop_tick env st =
        ⟨true, poll st.settings st.web env.senv env.writeOk env.req, [], false, [], st⟩ := by
      simp [loop_tick, hp]
    rw [hout]
    exact ⟨fun h => absurd rfl h, rfl, fun _ => ⟨rfl, fun hf => nomatch hf⟩⟩
  · have hout : loop_tick env st =
        ⟨false, poll st.settings st.web env.senv env.writeOk env.req,
         (sensor_step env st).2.2.1, (sensor_step env st).2.2.2,
         (wifi_step env st.settings (sensor_step env st).2.1).2,
         ⟨(wifi_step env st.settings (sensor_step env st).2.1).1, st.settings,
          (sensor_step env st).1⟩⟩ := by
      simp [loop_tick, hp]
    rw [hout]
    refine ⟨sensor_step_wire_connected env st, ?_, ?_⟩
    · show (wifi_step env st.settings (sensor_step env st).2.1).1.queued = st.mqtt.queued
      rw [wifi_step_queued, sensor_step_mqtt_queued]
    · intro hc
      refine ⟨?_, fun _ hd d hs => (sensor_step_disconnected_failure env st hc hd d hs).2⟩
      by_cases hd : env.sensorDue
      · cases hs : env.sensorData with
        | none =>
          show (sensor_step env st).2.2.1 = []
          unfold sensor_step
          simp [hd, hs]
        | some d => exact (sensor_step_disconnected_failure env st hc hd d hs).1
      · show (sensor_step env st).2.2.1 = []
        unfold sensor_step
        simp [hd]

/-- Witness for `c2_publish_only_when_connected`: a tick with the session
disconnected and a due sensor reading emits no telemetry, queues
nothing, and reports the publish as a local failure. -/
theorem c2_publish_only_when_connected_witness :
    (loop_tick
        ⟨Option.none, true, ⟨true, "10.0.0.2", false, 3⟩, true, some ⟨43/2, 241/5⟩,
         true, [], false, "2025-09-02T10:00:00Z"⟩
        ⟨⟨false, []⟩, demo_settings, webserver_init 0⟩).telemetry = []
    ∧ (loop_tick
        ⟨Option.none, true, ⟨true, "10.0.0.2", false, 3⟩, true, some ⟨43/2, 241/5⟩,
         true, [], false, "2025-09-02T10:00:00Z"⟩
        ⟨⟨false, []⟩, demo_settings, webserver_init 0⟩).next.mqtt.queued = []
    ∧ (loop_tick
        ⟨Option.none, true, ⟨true, "10.0.0.2", false, 3⟩, true, some ⟨43/2, 241/5⟩,
         true, [], false, "2025-09-02T10:00:00Z"⟩
        ⟨⟨false, []⟩, demo_settings, webserver_init 0⟩).telemetryFailure = true := by
  have h := c2_publish_only_when_connected
    ⟨Option.none, true, ⟨true, "10.0.0.2", false, 3⟩, true, some ⟨43/2, 241/5⟩,
     true, [], false, "2025-09-02T10:00:00Z"⟩
    ⟨⟨false, []⟩, demo_settings, webserver_init 0⟩
  exact ⟨(h.2.2 rfl).1, h.2.1, (h.2.2 rfl).2 rfl rfl _ rfl⟩

-- ===================================================================
-- C3: what restarts the device inside the running loop?
-- ===================================================================

theorem hasReset_poll (settings : Dict) (web : WebState) (senv : StatusEnv)
    (writeOk : Bool) (req : Option Request) :
    hasReset (poll settings web senv writeOk req) = request_resets req writeOk := by
  cases req with
  | none => rfl
  | some r =>
    cases r with
    | getConfig => rfl
    | getStatus => rfl
    | notFound => rfl
    | postConfig b =>
      cases b with
      | empty => rfl
      | badJson e => rfl
      | jsonObj c =>
        simp only [poll, handle_request, post_config, request_resets, body_valid]
        by_cases h1 : unknown_keys c = []
        · by_cases h2 : mqtt_port_invalid c = true
          · simp [h1, h2, hasReset, Event.isReset]
          · by_cases h3 : reading_interval_invalid c = true
            · simp [h1, h2, h3, hasReset, Event.isReset]
            · by_cases h4 : sensor_pin_invalid c = true
              · simp [h1, h2, h3, h4, hasReset, Event.isReset]
              · by_cases hw : writeOk = true
                · simp [h1, h2, h3, h4, hw, hasReset, save_settings,
                        Event.isReset]
                · simp [h1, h2, h3, h4, hw, hasReset, save_settings,
                        Event.isReset]
        · simp [h1, hasReset, Event.isReset]

/-- The concrete loop input for the C3 counterexample: the link is down,
all five `wifi.radio.connect` retries fail (the budget is exhausted), and
no HTTP request is pending. -/
def c3_env : TickEnv :=
  ⟨Option.none, true, ⟨false, "", false, 0⟩, false, Option.none, false,
   [false, false, false, false, false], false, "2025-09-02T10:00:00Z"⟩

/-- The concrete loop state for the C3 counterexample. -/
def c3_st : LoopState := ⟨⟨true, []⟩, demo_settings, webserver_init 0⟩

/-- C3, counterexample.  In a loop iteration where the link is down and
`NetworkManager.connect` exhausts all five retries (returning `False`),
the device does NOT restart: the `if network_mgr.connect():` branch in
`main` simply falls through and the loop continues to the next tick.
The only wifi-exhaustion restart in the program is in the startup phase
(code.py lines 875-885), before the control loop begins. -/
theorem c3_reconnect_exhaustion_no_restart :
    c3_env.wifiConnected = false
    ∧ nm_connect c3_env.wifiAttempts = false
    ∧ (loop_tick c3_env c3_st).didReset = false := ⟨rfl, rfl, rfl⟩

/-- C3, amended.  Inside the running control loop, the device resets in a
tick exactly when the pending HTTP request is a `POST /config` that
passes validation and whose settings write succeeds; in particular an
exhausted link-reconnection budget — like every other caught single-step
failure — never restarts the device or terminates the loop (the tick
completes and yields a successor state, so reconnection is simply
retried on later ticks). -/
theorem c3_reset_only_on_config_update (env : TickEnv) (st : LoopState) :
    (loop_tick env st).didReset = request_resets env.req env.writeOk := by
  rw [← hasReset_poll st.settings st.web env.senv env.writeOk env.req]
  cases hR : hasReset (poll st.settings st.web env.senv env.writeOk env.req) with
  | false => simp [loop_tick, hR]
  | true => simp [loop_tick, hR]

-- ===================================================================
-- C4: the body-completion read cannot loop forever
-- ===================================================================

theorem complete_body_no_fuelOut :
    ∀ (chunks : List (List Nat)) (body : List Nat) (clen : Nat),
      complete_body (chunks.length + 1) body clen chunks ≠ BodyRead.fuelOut := by
  intro chunks
  induction chunks with
  | nil =>
    intro body clen
    by_cases h : clen ≤ body.length
    · simp only [List.length_nil, complete_body, if_pos h]
      exact fun hc => nomatch hc
    · simp only [List.length_nil, complete_body, if_neg h]
      exact fun hc => nomatch hc
  | cons c rest ih =>
    intro body clen
    by_cases h : clen ≤ body.length
    · simp only [List.length_cons, complete_body, if_pos h]
      exact fun hc => nomatch hc
    · simp only [List.length_cons, complete_body, if_neg h]
      exact ih (body ++ c) clen

theorem complete_body_timeout :
    ∀ (chunks : List (List Nat)) (body : List Nat) (clen : Nat),
      body.length + chunkTotal chunks < clen →
      complete_body (chunks.length + 1) body clen chunks = BodyRead.timeoutErr := by
  intro chunks
  induction chunks with
  | nil =>
    intro body clen h
    have hz : chunkTotal [] = 0 := rfl
    have hlt : ¬ clen ≤ body.length := by omega
    simp only [List.length_nil, complete_body, if_neg hlt]
  | cons c rest ih =>
    intro body clen h
    have hlt : ¬ clen ≤ body.length := by
      have hnn : (0 : Nat) ≤ chunkTotal (c :: rest) := Nat.zero_le _
      omega
    simp only [List.length_cons, complete_body, if_neg hlt]
    refine ih (body ++ c) clen ?_
    have hcc : chunkTotal (c :: rest) = c.length + chunkTotal rest := by
      simp [chunkTotal]
    have hla : (body ++ c).length = body.length + c.length := List.length_append body c
    omega

/-- C4.  If the request's `Content-Length` exceeds the total number of
body bytes the client actually delivers, the body-completion loop of
`WebServer.poll` performs at most one `recv` per delivered chunk and
then the starved `recv` raises `OSError` when its 2.0 s timeout expires
(`.timeoutErr`); the raise is caught by poll's outer `except`, which
sends a 500 and closes, so `poll` returns within the bound of one
timeout per `recv`.  In general (last conjunct) the loop never runs for
more iterations than delivered chunks plus one — it cannot loop
forever. -/
theorem c4_body_read_bounded (handle : List Nat → HttpResp) (body : List Nat)
    (clen : Nat) (chunks : List (List Nat))
    (h : body.length + chunkTotal chunks < clen) :
    complete_body (chunks.length + 1) body clen chunks = BodyRead.timeoutErr
    ∧ poll_after_header handle body clen chunks = PollOutcome.errorClosed
    ∧ ∀ (b0 : List Nat) (c0 : Nat) (ch0 : List (List Nat)),
        complete_body (ch0.length + 1) b0 c0 ch0 ≠ BodyRead.fuelOut := by
  have ht := complete_body_timeout chunks body clen h
  refine ⟨ht, ?_, fun b0 c0 ch0 => complete_body_no_fuelOut ch0 b0 c0⟩
  simp [poll_after_header, ht]

/-- Witness for `c4_body_read_bounded`: a client that announces 10 body
bytes but delivers a single 3-byte chunk. -/
theorem c4_body_read_bounded_witness :
    complete_body (([[1, 2, 3]] : List (List Nat)).length + 1) [] 10 [[1, 2, 3]] =
      BodyRead.timeoutErr
    ∧ poll_after_header (fun _ => http_error 404 "Not Found") [] 10 [[1, 2, 3]] =
        PollOutcome.errorClosed
    ∧ ∀ (b0 : List Nat) (c0 : Nat) (ch0 : List (List Nat)),
        complete_body (ch0.length + 1) b0 c0 ch0 ≠ BodyRead.fuelOut :=
  c4_body_read_bounded (fun _ => http_error 404 "Not Found") [] 10 [[1, 2, 3]]
    (by decide)

-- ===================================================================
-- C9: collector defaults for device_id and timestamp
-- ===================================================================

theorem on_message_row_fields (nowT : Nat) (topic : String) (payload : Dict)
    (row : DbRow) (ts : PyTimestamp)
    (hts : collector_timestamp nowT payload = some ts)
    (hrow : on_message nowT topic payload = some row) :
    rowDevice row = dgetD payload "device_id" (PyVal.pystr "unknown")
    ∧ rowTs row = ts := by
  simp only [on_message, hts] at hrow
  by_cases h1 : strContainsLower topic "status" = true
  · simp only [h1, if_true, Option.some.injEq] at hrow
    rw [← hrow]
    exact ⟨rfl, rfl⟩
  · by_cases h2 : strContainsLower topic "temperature" = true
    · simp only [h1, h2, Bool.false_eq_true, if_false, if_true] at hrow
      cases hv : pyFloatOf (dgetD payload "value" (PyVal.pyint 0)) with
      | none =>
        rw [hv] at hrow
        exact Option.noConfusion hrow
      | some v =>
        rw [hv] at hrow
        injection hrow with hrow2
        rw [← hrow2]
        exact ⟨rfl, rfl⟩
    · by_cases h3 : strContainsLower topic "humidity" = true
      · simp only [h1, h2, h3, Bool.false_eq_true, if_false, if_true] at hrow
        cases hv : pyFloatOf (dgetD payload "value" (PyVal.pyint 0)) with
        | none =>
          rw [hv] at hrow
          exact Option.noConfusion hrow
        | some v =>
          rw [hv] at hrow
          injection hrow with hrow2
          rw [← hrow2]
          exact ⟨rfl, rfl⟩
      · simp only [h1, h2, h3, Bool.false_eq_true, if_false] at hrow
        exact Option.noConfusion hrow

/-- C9.  For every telemetry or status message the collector stores, a
payload with no `device_id` field produces a row whose device column is
the string `"unknown"`, and a payload with no `timestamp` field produces
a row stamped with `datetime.utcnow()` taken at processing time — the
substituted defaults are exactly what is inserted into PostgreSQL. -/
theorem c9_collector_defaults (nowT : Nat) (topic : String) (payload : Dict)
    (row : DbRow) (hrow : on_message nowT topic payload = some row) :
    (dget payload "device_id" = Option.none → rowDevice row = PyVal.pystr "unknown")
    ∧ (dget payload "timestamp" = Option.none → rowTs row = PyTimestamp.utcNow nowT) := by
  constructor
  · intro hdev
    cases hts : collector_timestamp nowT payload with
    | none =>
      simp only [on_message, hts] at hrow
      exact Option.noConfusion hrow
    | some ts =>
      have hf := on_message_row_fields nowT topic payload row ts hts hrow
      rw [hf.1]
      simp [dgetD, hdev]
  · intro hmiss
    have hts : collector_timestamp nowT payload = some (PyTimestamp.utcNow nowT) := by
      simp [collector_timestamp, hmiss]
    exact (on_message_row_fields nowT topic payload row _ hts hrow).2

/-- Witness for `c9_collector_defaults`: an empty payload on the topic
`iiot/status` is stored as device `"unknown"` with timestamp "now". -/
theorem c9_collector_defaults_witness :
    rowDevice (DbRow.statusRow (PyVal.pystr "unknown") (PyVal.pystr "unknown")
      (PyTimestamp.utcNow 5)) = PyVal.pystr "unknown"
    ∧ rowTs (DbRow.statusRow (PyVal.pystr "unknown") (PyVal.pystr "unknown")
      (PyTimestamp.utcNow 5)) = PyTimestamp.utcNow 5 := by
  have h := c9_collector_defaults 5 "iiot/status" []
    (DbRow.statusRow (PyVal.pystr "unknown") (PyVal.pystr "unknown")
      (PyTimestamp.utcNow 5)) rfl
  exact ⟨h.1 rfl, h.2 rfl⟩

-- ===================================================================
-- C10: sensor construction and read-after-init-failure safety
-- ===================================================================

/-- C10.  Pin resolution in `Sensor.__init__` never raises for any
integer pin index: on the Pico W board every `GP<n>` lookup either
succeeds or falls back to `board.GP22` (which exists); and a sensor
whose DHT driver failed to initialize returns `None` from every
`read_data` call, whatever the raw driver outcome would be. -/
theorem c10_sensor_never_raises (n : Int) (raw : Option (Option ℚ × Option ℚ)) :
    (∃ p, resolve_pin n = Except.ok p)
    ∧ (pico_pins.contains (pin_name n) = false → resolve_pin n = Except.ok "GP22")
    ∧ (∀ s, sensor_init n false = Except.ok s → sensor_read s raw = Option.none) := by
  have h22 : board_getattr "GP22" = some "GP22" := rfl
  refine ⟨?_, ?_, ?_⟩
  · by_cases h : pico_pins.contains (pin_name n) = true
    · refine ⟨pin_name n, ?_⟩
      have hmem : pin_name n ∈ pico_pins := by simpa using h
      have hb : board_getattr (pin_name n) = some (pin_name n) := by
        simp [board_getattr, hmem]
      simp [resolve_pin, hb]
    · refine ⟨"GP22", ?_⟩
      have hmem : pin_name n ∉ pico_pins := by simpa using h
      have hb : board_getattr (pin_name n) = Option.none := by
        simp [board_getattr, hmem]
      simp [resolve_pin, hb, h22]
  · intro h
    have hmem : pin_name n ∉ pico_pins := by simpa using h
    have hb : board_getattr (pin_name n) = Option.none := by
      simp [board_getattr, hmem]
    simp [resolve_pin, hb, h22]
  · intro s hs
    cases hr : resolve_pin n with
    | ok p =>
      simp only [sensor_init, hr, Except.ok.injEq] at hs
      rw [← hs]
      simp [sensor_read]
    | error e =>
      simp only [sensor_init, hr] at hs
      exact Except.noConfusion hs

/-- Witness for `c10_sensor_never_raises` at pin index 99 (no `GP99`
exists, so the fallback fires) with a DHT driver that failed to
initialize. -/
theorem c10_sensor_never_raises_witness :
    resolve_pin 99 = Except.ok "GP22"
    ∧ sensor_read ⟨"GP22", false⟩ (some (some 1, some 2)) = Option.none := by
  have h := c10_sensor_never_raises 99 (some (some 1, some 2))
  exact ⟨h.2.1 rfl, h.2.2 ⟨"GP22", false⟩ rfl⟩

end IIoT
